import Mathlib

/-!
Verification of `wait_file_created` (src/src/lib.rs).

The crate's control flow is embedded shallowly: every interaction with the
operating system (an `open` attempt, `inotify` initialisation, `add_watch`,
a blocking `read_events_blocking` call) is modelled as consuming the next
element of an oracle stream supplied as an explicit argument, and the
library's loops become structural recursion over those streams.  An
exhausted stream denotes "the call is still running" (`diverge`); the
library itself never terminates a loop except through the returns modelled
below.  Sleeps performed by the polling fallback are collected into a trace
so that "retries after sleeping the interval" and "fails immediately" are
distinguishable.
-/

/-- Model of `std::io::ErrorKind`: the code only ever distinguishes
`NotFound` from everything else, but further kinds are kept so that
distinct non-`NotFound` errors exist. -/
inductive ErrorKind
  | notFound
  | permissionDenied
  | other (code : Nat)
deriving DecidableEq, Repr

/-- Model of `std::io::Error`: its kind plus an opaque payload so that two
errors of the same kind remain distinguishable (the code propagates errors
verbatim). -/
structure IoError where
  kind : ErrorKind
  payload : Nat
deriving DecidableEq, Repr

/-- `io::Error::from(kind)` (used at src/src/lib.rs:197). -/
def IoError.fromKind (k : ErrorKind) : IoError := ⟨k, 0⟩

/-- Model of `std::time::Duration` (whole seconds suffice here). -/
structure Duration where
  secs : Nat
deriving DecidableEq, Repr

/-- `Duration::from_secs`. -/
def Duration.from_secs (n : Nat) : Duration := ⟨n⟩

/-- Model of `std::fs::OpenOptions`: the flag set the builder can carry.
Field names follow the `OpenOptions` setter names; `OpenOptions::new()`
clears every flag. -/
structure OpenOptions where
  read : Bool
  write : Bool
  append : Bool
  truncate : Bool
  create : Bool
  create_new : Bool
deriving DecidableEq, Repr

/-- `OpenOptions::new()`: all flags off. -/
def OpenOptions.new : OpenOptions := ⟨false, false, false, false, false, false⟩

/-- One `inotify` event as the code consumes it (src/src/lib.rs:195-202):
the code reads only whether `IGNORED` is set in `event.mask` and the
optional `event.name`.  The extra `about_self` field records whether the
event pertains to the watched object itself rather than to a child of a
watched directory; the source never inspects it, but the specification's
wording refers to it, so it is carried along untouched. -/
structure Event where
  mask_ignored : Bool
  name : Option String
  about_self : Bool
deriving DecidableEq, Repr

/-- Result of one `self.open_options.open(path)` attempt; file handles are
abstract identifiers. -/
inductive OpenResult
  | ok (file : Nat)
  | err (e : IoError)
deriving DecidableEq, Repr

/-- Result of one `inotify.read_events_blocking(&mut buffer)` call. -/
inductive ReadResult
  | ok (events : List Event)
  | err (e : IoError)
deriving DecidableEq, Repr

/-- Overall outcome of a call: the opened file, a terminal error, or
`diverge` when the modelled oracle streams run out while the code would
still be looping. -/
inductive Outcome
  | ok (file : Nat)
  | err (e : IoError)
  | diverge
deriving DecidableEq, Repr

/-- The builder `Options` (src/src/lib.rs:61-66), with the source's field
names and order. -/
structure Options where
  open_options : OpenOptions
  retry_flukes : Bool
  create_is_atomic : Bool
  polling_fallback : Option Duration
deriving DecidableEq, Repr

/-- `Options::with_open_options` (src/src/lib.rs:75-82). -/
def Options.with_open_options (open_options : OpenOptions) : Options :=
  { open_options := open_options
    retry_flukes := false
    create_is_atomic := false
    polling_fallback := none }

/-- `Options::retry_on_fluke` (src/src/lib.rs:90-93). -/
def Options.retry_on_fluke (self : Options) (retry : Bool) : Options :=
  { self with retry_flukes := retry }

/-- `Options::polling_fallback_interval` (src/src/lib.rs:102-105). -/
def Options.polling_fallback_interval (self : Options) (interval : Duration) : Options :=
  { self with polling_fallback := some interval }

/-- `Options::assume_create_is_atomic` (src/src/lib.rs:116-119). -/
def Options.assume_create_is_atomic (self : Options) (is_atomic : Bool) : Options :=
  { self with create_is_atomic := is_atomic }

/-- The inotify watch mask as a record of the flags the code can set
(src/src/lib.rs:136-139). -/
structure WatchMask where
  close_write : Bool
  moved_to : Bool
  delete_self : Bool
  onlydir : Bool
  create : Bool
deriving DecidableEq, Repr

/-- The mask computed in `internal_open_when_created`
(src/src/lib.rs:136-139): `CLOSE_WRITE | MOVED_TO | DELETE_SELF | ONLYDIR`,
with `CREATE` or-ed in when `create_is_atomic` is set. -/
def Options.watch_mask (self : Options) : WatchMask :=
  let mask : WatchMask := ⟨true, true, true, true, false⟩
  if self.create_is_atomic then { mask with create := true } else mask

/-- `Options::try_fallback_open` (src/src/lib.rs:153-166), over the stream
of open-attempt results.  The second component of the result is the trace
of sleeps performed (one entry per `std::thread::sleep(*interval)`). -/
def Options.try_fallback_open (self : Options) (inotify_error : IoError) :
    List OpenResult → Outcome × List Duration
  | [] => (Outcome.diverge, [])
  | OpenResult.ok file :: _ => (Outcome.ok file, [])
  | OpenResult.err error :: rest =>
    if error.kind = ErrorKind.notFound then
      match self.polling_fallback with
      | some interval =>
        let r := self.try_fallback_open inotify_error rest
        (r.1, interval :: r.2)
      | none => (Outcome.err inotify_error, [])
    else (Outcome.err error, [])

/-- Result of the `for event in events` loop in `wait_for_file`
(src/src/lib.rs:195-202): either an `IGNORED` event was hit (the function
returns into the fallback), or the loop finished with the final value of
`found`. -/
inductive BatchOutcome
  | escalate
  | done (found : Bool)
deriving DecidableEq, Repr

/-- The `for event in events` loop of `wait_for_file`
(src/src/lib.rs:195-202), with `found` as the loop-carried flag: an event
whose mask contains `IGNORED` returns immediately; an event whose `name`
equals `Some(path)` sets `found`; every other event is skipped.  Note that
the loop keeps running over the rest of the batch after `found` is set. -/
def process_events (path : String) : Bool → List Event → BatchOutcome
  | found, [] => BatchOutcome.done found
  | found, event :: rest =>
    if event.mask_ignored then BatchOutcome.escalate
    else if event.name = some path then process_events path true rest
    else process_events path found rest

/-- Result of the `while !found` loop in `wait_for_file`
(src/src/lib.rs:189-203): a matching signal was seen (carrying the
still-unconsumed read results), or the function escalated into the
fallback with the given cause, or the modelled read stream ran out. -/
inductive InnerOutcome
  | matched (reads_rest : List ReadResult)
  | escalate (cause : IoError)
  | diverge
deriving DecidableEq, Repr

/-- The `while !found` loop of `wait_for_file` (src/src/lib.rs:189-203):
block for a batch of events; a read error escalates with that error; an
`IGNORED` event escalates with `io::Error::from(ErrorKind::NotFound)`; a
batch containing a matching event exits the loop; otherwise block again.
`found` enters each batch as `false` because a batch that sets it also
exits the loop. -/
def wait_inner (path : String) : List ReadResult → InnerOutcome
  | [] => InnerOutcome.diverge
  | ReadResult.err error :: _ => InnerOutcome.escalate error
  | ReadResult.ok events :: rest =>
    match process_events path false events with
    | BatchOutcome.escalate => InnerOutcome.escalate (IoError.fromKind ErrorKind.notFound)
    | BatchOutcome.done true => InnerOutcome.matched rest
    | BatchOutcome.done false => wait_inner path rest

/-- Outcome of `wait_for_file` before the fallback is run: `escalate`
records the cause handed to `try_fallback_open` together with the open
results the fallback will go on to consume. -/
inductive WaitOutcome
  | ok (file : Nat)
  | err (e : IoError)
  | escalate (cause : IoError) (opens_rest : List OpenResult)
  | diverge
deriving DecidableEq, Repr

/-- The outer `loop` of `wait_for_file` (src/src/lib.rs:174-206) with the
loop-local `not_found_is_ok` flag explicit: attempt to open; success
returns; a `NotFound` error is tolerated exactly when `not_found_is_ok`
holds, in which case the inner event loop runs and, after a matching
signal, the loop restarts with `not_found_is_ok = self.retry_flukes`
(src/src/lib.rs:205); any other open error is returned. -/
def wait_loop (self : Options) (path : String) :
    Bool → List OpenResult → List ReadResult → WaitOutcome
  | _, [], _ => WaitOutcome.diverge
  | not_found_is_ok, open_result :: opens_rest, reads =>
    match open_result with
    | OpenResult.ok file => WaitOutcome.ok file
    | OpenResult.err error =>
      if error.kind = ErrorKind.notFound ∧ not_found_is_ok = true then
        match wait_inner path reads with
        | InnerOutcome.matched reads_rest =>
          wait_loop self path self.retry_flukes opens_rest reads_rest
        | InnerOutcome.escalate cause => WaitOutcome.escalate cause opens_rest
        | InnerOutcome.diverge => WaitOutcome.diverge
      else WaitOutcome.err error

/-- `Options::wait_for_file` (src/src/lib.rs:168-207): the outer loop is
entered with `not_found_is_ok = true` (src/src/lib.rs:172). -/
def Options.wait_for_file (self : Options) (path : String)
    (opens : List OpenResult) (reads : List ReadResult) : WaitOutcome :=
  wait_loop self path true opens reads

/-- `Options::internal_open_when_created` (src/src/lib.rs:131-151):
`init_result` models `inotify::Inotify::init()` (`none` = success) and
`add_watch` models `inotify.add_watch(path, mask)`, applied to the mask the
code builds.  Establishment failure routes to `try_fallback_open` with the
failing call's error; otherwise `wait_for_file` runs, and an escalation
from it runs `try_fallback_open` on the remaining open results with the
escalation's cause (src/src/lib.rs:192 and 197). -/
def Options.internal_open_when_created (self : Options) (path : String)
    (init_result : Option IoError) (add_watch : WatchMask → Option IoError)
    (opens : List OpenResult) (reads : List ReadResult) : Outcome × List Duration :=
  match init_result with
  | some error => self.try_fallback_open error opens
  | none =>
    match add_watch self.watch_mask with
    | some error => self.try_fallback_open error opens
    | none =>
      match self.wait_for_file path opens reads with
      | WaitOutcome.ok file => (Outcome.ok file, [])
      | WaitOutcome.err error => (Outcome.err error, [])
      | WaitOutcome.escalate cause opens_rest => self.try_fallback_open cause opens_rest
      | WaitOutcome.diverge => (Outcome.diverge, [])

/-- `Options::open_when_created` (src/src/lib.rs:126-129): a direct
delegation to `internal_open_when_created`. -/
def Options.open_when_created (self : Options) (path : String)
    (init_result : Option IoError) (add_watch : WatchMask → Option IoError)
    (opens : List OpenResult) (reads : List ReadResult) : Outcome × List Duration :=
  self.internal_open_when_created path init_result add_watch opens reads

/-- `robust_wait_read` (src/src/lib.rs:216-224): read-only open options,
`retry_on_fluke(true)`, a two-second polling fallback, then
`open_when_created`. -/
def robust_wait_read (path : String)
    (init_result : Option IoError) (add_watch : WatchMask → Option IoError)
    (opens : List OpenResult) (reads : List ReadResult) : Outcome × List Duration :=
  let open_options := { OpenOptions.new with read := true }
  (((Options.with_open_options open_options).retry_on_fluke true).polling_fallback_interval
      (Duration.from_secs 2)).open_when_created path init_result add_watch opens reads

/-- `robust_wait_read_write` (src/src/lib.rs:232-240): as
`robust_wait_read` but with read-write open options. -/
def robust_wait_read_write (path : String)
    (init_result : Option IoError) (add_watch : WatchMask → Option IoError)
    (opens : List OpenResult) (reads : List ReadResult) : Outcome × List Duration :=
  let open_options := { OpenOptions.new with read := true, write := true }
  (((Options.with_open_options open_options).retry_on_fluke true).polling_fallback_interval
      (Duration.from_secs 2)).open_when_created path init_result add_watch opens reads

/-- `robust_wait_read_append` (src/src/lib.rs:248-256): as
`robust_wait_read` but with read-append open options. -/
def robust_wait_read_append (path : String)
    (init_result : Option IoError) (add_watch : WatchMask → Option IoError)
    (opens : List OpenResult) (reads : List ReadResult) : Outcome × List Duration :=
  let open_options := { OpenOptions.new with read := true, append := true }
  (((Options.with_open_options open_options).retry_on_fluke true).polling_fallback_interval
      (Duration.from_secs 2)).open_when_created path init_result add_watch opens reads

/-- Modelled from the spec: the per-event match condition as section 4.1(g)
of the specification words it — "the event's associated name matches
`path` (or the event has no name and pertains to the object itself)".
This definition exists only to be compared against the behaviour of
`process_events`, which is translated from the source. -/
def spec_event_matches (path : String) (event : Event) : Bool :=
  event.name == some path || (event.name == none && event.about_self)

/-- C3: one iteration of `try_fallback_open`: a successful open returns the
handle with no sleep; a failure whose kind is not `NotFound` is returned
immediately; a `NotFound` failure sleeps the configured interval and
retries when an interval is present, and otherwise fails immediately with
the carried cause error. -/
theorem C3_try_fallback_open_step (cfg : Options) (cause : IoError) (file : Nat)
    (error : IoError) (rest : List OpenResult) :
    cfg.try_fallback_open cause (OpenResult.ok file :: rest) = (Outcome.ok file, [])
    ∧ cfg.try_fallback_open cause (OpenResult.err error :: rest)
        = (if error.kind = ErrorKind.notFound then
            match cfg.polling_fallback with
            | some interval =>
              ((cfg.try_fallback_open cause rest).1,
                interval :: (cfg.try_fallback_open cause rest).2)
            | none => (Outcome.err cause, [])
          else (Outcome.err error, [])) :=
  ⟨rfl, rfl⟩

/-- C7: the watch mask always selects `CLOSE_WRITE`, `MOVED_TO` and
`DELETE_SELF`, and selects `CREATE` exactly when `create_is_atomic` is
configured. -/
theorem C7_watch_mask_contents (cfg : Options) :
    cfg.watch_mask.close_write = true
    ∧ cfg.watch_mask.moved_to = true
    ∧ cfg.watch_mask.delete_self = true
    ∧ cfg.watch_mask.create = cfg.create_is_atomic := by
  cases h : cfg.create_is_atomic <;> simp [Options.watch_mask, h]

/-- C8: each shorthand equals `open_when_created` on an `Options` value
with the corresponding access mode, `retry_flukes = true` and a two-second
polling fallback; and `with_open_options` defaults to `retry_flukes =
false`, no atomic-creation assumption and no polling fallback. -/
theorem C8_shorthands_are_presets (path : String) (init_result : Option IoError)
    (add_watch : WatchMask → Option IoError) (opens : List OpenResult)
    (reads : List ReadResult) (oo : OpenOptions) :
    robust_wait_read path init_result add_watch opens reads
      = Options.open_when_created
          ⟨{ OpenOptions.new with read := true }, true, false, some (Duration.from_secs 2)⟩
          path init_result add_watch opens reads
    ∧ robust_wait_read_write path init_result add_watch opens reads
      = Options.open_when_created
          ⟨{ OpenOptions.new with read := true, write := true }, true, false,
            some (Duration.from_secs 2)⟩
          path init_result add_watch opens reads
    ∧ robust_wait_read_append path init_result add_watch opens reads
      = Options.open_when_created
          ⟨{ OpenOptions.new with read := true, append := true }, true, false,
            some (Duration.from_secs 2)⟩
          path init_result add_watch opens reads
    ∧ Options.with_open_options oo = ⟨oo, false, false, none⟩ :=
  ⟨rfl, rfl, rfl, rfl⟩

/-- C2 counterexample: an event with no associated name that pertains to
the watched object itself satisfies the specification's match condition,
yet `process_events` — the loop translated from src/src/lib.rs:195-202 —
records no match for it: the code compares `event.name` against
`Some(path)` only. -/
theorem C2_counterexample_nameless_self_event :
    spec_event_matches "target" ⟨false, none, true⟩ = true
    ∧ process_events "target" false [⟨false, none, true⟩] = BatchOutcome.done false :=
  ⟨rfl, rfl⟩

/-- C2 (amended): for a batch containing no subscription-invalidated
event, the match recorded by the loop is exactly "some event's associated
name equals the target path"; an event with no associated name — even one
pertaining to the watched object itself — records no match. -/
theorem C2_match_iff_name_equals_path (path : String) (events : List Event) (found : Bool)
    (h : ∀ e ∈ events, e.mask_ignored = false) :
    process_events path found events
      = BatchOutcome.done (found || events.any fun e => e.name == some path) := by
  induction events generalizing found with
  | nil => simp [process_events]
  | cons e rest ih =>
    have he : e.mask_ignored = false := h e (by simp)
    have hrest : ∀ x ∈ rest, x.mask_ignored = false := fun x hx => h x (by simp [hx])
    by_cases hn : e.name = some path
    · simp [process_events, he, hn, ih true hrest]
    · have hnb : (e.name == some path) = false := beq_eq_false_iff_ne.mpr hn
      simp [process_events, he, hn, hnb, ih found hrest]

/-- Witness for C2's amended theorem at a concrete two-event batch. -/
theorem C2_match_iff_name_equals_path_witness :
    process_events "target" false
        [⟨false, some "target", false⟩, ⟨false, none, true⟩]
      = BatchOutcome.done true := by
  rw [C2_match_iff_name_equals_path "target"
      [⟨false, some "target", false⟩, ⟨false, none, true⟩] false (by decide)]
  rfl

/-- C9: as soon as the event loop reaches a subscription-invalidated
(`IGNORED`) event, it escalates, regardless of what the rest of the batch
contains — in particular even when a later event of the same batch would
match the target path. -/
theorem C9_ignored_event_short_circuits_batch (path : String) (ignored_event : Event)
    (post : List Event) (pre : List Event) (found : Bool)
    (hpre : ∀ x ∈ pre, x.mask_ignored = false)
    (hig : ignored_event.mask_ignored = true) :
    process_events path found (pre ++ ignored_event :: post) = BatchOutcome.escalate := by
  induction pre generalizing found with
  | nil => simp [process_events, hig]
  | cons x rest ih =>
    have hx : x.mask_ignored = false := hpre x (by simp)
    have hrest : ∀ y ∈ rest, y.mask_ignored = false := fun y hy => hpre y (by simp [hy])
    by_cases hn : x.name = some path
    · simpa [process_events, hx, hn] using ih true hrest
    · simpa [process_events, hx, hn] using ih found hrest

/-- Witness for C9: the batch ends with an event naming the target path,
yet the `IGNORED` event before it already decides the outcome. -/
theorem C9_ignored_event_short_circuits_batch_witness :
    process_events "target" false
        [⟨false, some "other", false⟩, ⟨true, none, false⟩, ⟨false, some "target", false⟩]
      = BatchOutcome.escalate :=
  C9_ignored_event_short_circuits_batch "target" ⟨true, none, false⟩
    [⟨false, some "target", false⟩] [⟨false, some "other", false⟩] false (by decide) rfl

/-- C1: the wait loop starts with `not_found_is_ok = true`, so a first
`NotFound` open failure is tolerated and, after a matching signal, the
loop restarts with `not_found_is_ok = retry_flukes`; consequently with
`retry_flukes = false` a `NotFound` failure on the open attempt following
a matching signal terminates the call with that `NotFound` error. -/
theorem C1_tolerance_toggle (cfg : Options) (path : String) (e e2 : IoError)
    (opens_rest : List OpenResult) (reads reads_rest : List ReadResult)
    (he : e.kind = ErrorKind.notFound)
    (hm : wait_inner path reads = InnerOutcome.matched reads_rest) :
    (∀ (cfg2 : Options) (opens2 : List OpenResult),
        wait_loop cfg2 path true (OpenResult.err e :: opens2) reads
          = wait_loop cfg2 path cfg2.retry_flukes opens2 reads_rest)
    ∧ (cfg.retry_flukes = false → e2.kind = ErrorKind.notFound →
        cfg.wait_for_file path (OpenResult.err e :: OpenResult.err e2 :: opens_rest) reads
          = WaitOutcome.err e2) := by
  have h1 : ∀ (cfg2 : Options) (opens2 : List OpenResult),
      wait_loop cfg2 path true (OpenResult.err e :: opens2) reads
        = wait_loop cfg2 path cfg2.retry_flukes opens2 reads_rest := by
    intro cfg2 opens2
    simp [wait_loop, he, hm]
  refine ⟨h1, fun hr he2 => ?_⟩
  rw [Options.wait_for_file, h1 cfg (OpenResult.err e2 :: opens_rest), hr]
  simp [wait_loop]

/-- Witness for C1 at a concrete configuration with `retry_flukes =
false`: the first `NotFound` is tolerated, the second — after the match —
is returned. -/
theorem C1_tolerance_toggle_witness :
    (Options.with_open_options OpenOptions.new).wait_for_file "target"
        [OpenResult.err ⟨ErrorKind.notFound, 1⟩, OpenResult.err ⟨ErrorKind.notFound, 2⟩]
        [ReadResult.ok [⟨false, some "target", false⟩]]
      = WaitOutcome.err ⟨ErrorKind.notFound, 2⟩ :=
  (C1_tolerance_toggle (Options.with_open_options OpenOptions.new) "target"
      ⟨ErrorKind.notFound, 1⟩ ⟨ErrorKind.notFound, 2⟩ []
      [ReadResult.ok [⟨false, some "target", false⟩]] [] rfl rfl).2 rfl rfl

/-- C5: a batch in which no event matches leaves the engine waiting for
more events: the inner loop continues on the remaining reads, and the
whole outer loop is unchanged by such a batch — no open attempt is
consumed before a matching signal. -/
theorem C5_no_reopen_without_match (path : String) (events : List Event)
    (rest : List ReadResult)
    (h : process_events path false events = BatchOutcome.done false) :
    wait_inner path (ReadResult.ok events :: rest) = wait_inner path rest
    ∧ ∀ (cfg : Options) (not_found_is_ok : Bool) (opens : List OpenResult),
        wait_loop cfg path not_found_is_ok opens (ReadResult.ok events :: rest)
          = wait_loop cfg path not_found_is_ok opens rest := by
  have h1 : wait_inner path (ReadResult.ok events :: rest) = wait_inner path rest := by
    simp [wait_inner, h]
  refine ⟨h1, ?_⟩
  intro cfg not_found_is_ok opens
  cases opens with
  | nil => rfl
  | cons o opens_rest =>
    cases o with
    | ok file => rfl
    | err error =>
      simp only [wait_loop]
      rw [h1]

/-- Witness for C5: a nameless-self-event batch changes nothing. -/
theorem C5_no_reopen_without_match_witness :
    wait_inner "target"
        [ReadResult.ok [⟨false, none, true⟩], ReadResult.ok [⟨false, some "target", false⟩]]
      = wait_inner "target" [ReadResult.ok [⟨false, some "target", false⟩]] :=
  (C5_no_reopen_without_match "target" [⟨false, none, true⟩]
      [ReadResult.ok [⟨false, some "target", false⟩]] rfl).1

/-- C6: a subscription-invalidated (`IGNORED`) event makes the wait loop
escalate to the polling fallback carrying `io::Error::from(NotFound)` — a
Missing-class error — as the cause: the inner loop escalates with it, the
outer loop surfaces that escalation, and `internal_open_when_created` runs
`try_fallback_open` with exactly that cause.  (The watch handle, owned by
value in the source, is released by scope exit on this return path.) -/
theorem C6_invalidation_folded_into_missing (path : String) (events : List Event)
    (rest : List ReadResult)
    (h : process_events path false events = BatchOutcome.escalate) :
    wait_inner path (ReadResult.ok events :: rest)
        = InnerOutcome.escalate (IoError.fromKind ErrorKind.notFound)
    ∧ (IoError.fromKind ErrorKind.notFound).kind = ErrorKind.notFound
    ∧ (∀ (cfg : Options) (e : IoError) (opens : List OpenResult),
        e.kind = ErrorKind.notFound →
        wait_loop cfg path true (OpenResult.err e :: opens) (ReadResult.ok events :: rest)
          = WaitOutcome.escalate (IoError.fromKind ErrorKind.notFound) opens)
    ∧ (∀ (cfg : Options) (add_watch : WatchMask → Option IoError)
          (e : IoError) (opens : List OpenResult),
        add_watch cfg.watch_mask = none → e.kind = ErrorKind.notFound →
        cfg.internal_open_when_created path none add_watch
            (OpenResult.err e :: opens) (ReadResult.ok events :: rest)
          = cfg.try_fallback_open (IoError.fromKind ErrorKind.notFound) opens) := by
  have h1 : wait_inner path (ReadResult.ok events :: rest)
      = InnerOutcome.escalate (IoError.fromKind ErrorKind.notFound) := by
    simp [wait_inner, h]
  have h3 : ∀ (cfg : Options) (e : IoError) (opens : List OpenResult),
      e.kind = ErrorKind.notFound →
      wait_loop cfg path true (OpenResult.err e :: opens) (ReadResult.ok events :: rest)
        = WaitOutcome.escalate (IoError.fromKind ErrorKind.notFound) opens := by
    intro cfg e opens he
    simp [wait_loop, he, h1]
  refine ⟨h1, rfl, h3, ?_⟩
  intro cfg add_watch e opens hw he
  simp [Options.internal_open_when_created, hw, Options.wait_for_file, h3 cfg e opens he]

/-- Witness for C6 at a one-event `IGNORED` batch. -/
theorem C6_invalidation_folded_into_missing_witness :
    wait_inner "target" [ReadResult.ok [⟨true, none, false⟩]]
      = InnerOutcome.escalate ⟨ErrorKind.notFound, 0⟩ :=
  (C6_invalidation_folded_into_missing "target" [⟨true, none, false⟩] [] rfl).1

/-- C4: failure of inotify initialisation or of watch establishment routes
directly into `try_fallback_open` with the establishment error as cause;
with no polling interval configured and the target absent (first open
attempt fails `NotFound`), the call returns that establishment error at
once — no sleep is performed and no further open attempt is consumed. -/
theorem C4_establishment_failure_escalates (cfg : Options) (path : String)
    (err0 : IoError) (add_watch : WatchMask → Option IoError)
    (opens : List OpenResult) (reads : List ReadResult)
    (e : IoError) (rest : List OpenResult)
    (hw : add_watch cfg.watch_mask = some err0)
    (hp : cfg.polling_fallback = none)
    (he : e.kind = ErrorKind.notFound) :
    cfg.internal_open_when_created path (some err0) add_watch opens reads
        = cfg.try_fallback_open err0 opens
    ∧ cfg.internal_open_when_created path none add_watch opens reads
        = cfg.try_fallback_open err0 opens
    ∧ cfg.internal_open_when_created path (some err0) add_watch
          (OpenResult.err e :: rest) reads
        = (Outcome.err err0, [])
    ∧ cfg.internal_open_when_created path none add_watch
          (OpenResult.err e :: rest) reads
        = (Outcome.err err0, []) := by
  have h2 : ∀ (opens2 : List OpenResult) (reads2 : List ReadResult),
      cfg.internal_open_when_created path none add_watch opens2 reads2
        = cfg.try_fallback_open err0 opens2 := by
    intro opens2 reads2
    simp [Options.internal_open_when_created, hw]
  have h3 : cfg.try_fallback_open err0 (OpenResult.err e :: rest)
      = (Outcome.err err0, []) := by
    simp [Options.try_fallback_open, he, hp]
  exact ⟨rfl, h2 opens reads, h3, (h2 (OpenResult.err e :: rest) reads).trans h3⟩

/-- Witness for C4: watch establishment fails, no polling interval, file
absent — the establishment error surfaces immediately. -/
theorem C4_establishment_failure_escalates_witness :
    (Options.with_open_options OpenOptions.new).internal_open_when_created "target" none
        (fun _ => some ⟨ErrorKind.other 9, 5⟩)
        [OpenResult.err ⟨ErrorKind.notFound, 1⟩] []
      = (Outcome.err ⟨ErrorKind.other 9, 5⟩, []) :=
  (C4_establishment_failure_escalates (Options.with_open_options OpenOptions.new) "target"
      ⟨ErrorKind.other 9, 5⟩ (fun _ => some ⟨ErrorKind.other 9, 5⟩)
      [OpenResult.err ⟨ErrorKind.notFound, 1⟩] [] ⟨ErrorKind.notFound, 1⟩ []
      rfl rfl rfl).2.2.2

/-- C10: when establishment fails but the first fallback open attempt
succeeds, the call returns the opened file and the establishment error is
discarded — for every configuration, including one with no polling
fallback interval. -/
theorem C10_open_success_discards_establishment_error (cfg : Options) (path : String)
    (err0 : IoError) (add_watch : WatchMask → Option IoError) (file : Nat)
    (rest : List OpenResult) (reads : List ReadResult)
    (hw : add_watch cfg.watch_mask = some err0) :
    cfg.internal_open_when_created path (some err0) add_watch
        (OpenResult.ok file :: rest) reads
      = (Outcome.ok file, [])
    ∧ cfg.internal_open_when_created path none add_watch
        (OpenResult.ok file :: rest) reads
      = (Outcome.ok file, []) := by
  refine ⟨rfl, ?_⟩
  simp [Options.internal_open_when_created, hw, Options.try_fallback_open]

/-- Witness for C10: no polling interval configured, watch establishment
fails, yet the already-present file is returned. -/
theorem C10_open_success_discards_establishment_error_witness :
    (Options.with_open_options OpenOptions.new).internal_open_when_created "target" none
        (fun _ => some ⟨ErrorKind.other 9, 5⟩) [OpenResult.ok 7] []
      = (Outcome.ok 7, []) :=
  (C10_open_success_discards_establishment_error (Options.with_open_options OpenOptions.new)
      "target" ⟨ErrorKind.other 9, 5⟩ (fun _ => some ⟨ErrorKind.other 9, 5⟩) 7 [] [] rfl).2
